import Mathlib

/-!
Shallow embedding of the content-classification and paid-resource
deduplication/recommendation core of the celebrity-crawler repository
(`src/lib/utils/deduplication.ts`, `src/lib/utils/classifier.ts`,
`src/lib/crawlers/paid/index.ts`), together with proofs of the frozen
claims about it.

Modelling conventions:
* JavaScript numbers are modelled as `ℚ` (all arithmetic in the core is
  exact on the inputs of interest); `Infinity` sentinels are modelled as
  `Option ℚ` with `none` standing for `Infinity`.
* TypeScript strings are Lean `String`s.  Case folding is modelled on the
  ASCII range (`Char.toLower`); tokens surviving the normalisation filter
  consist of ASCII word characters and CJK ideographs, which are unaffected
  by full Unicode case mapping, so the model agrees with the source there.
* Optional TS fields (`author?: string`) become `Option String`; the JS
  truthiness test on a string is `≠ ""` on the wrapped value.
* In-place mutation (the single `Array.prototype.sort` call on an input)
  is modelled by explicit state passing: `getPriceComparison` returns the
  post-call resource alongside its result.
-/

namespace Crawler

/-! ### String normalisation (deduplication.ts, `calculateSimilarity`) -/

/-- ASCII lowercase of a string, modelling `String.prototype.toLowerCase`
on the character ranges the normaliser keeps. -/
def jsToLower (s : String) : String :=
  String.mk (s.data.map Char.toLower)

/-- Characters kept by the regex replace `[^\w\s一-鿿] → ''`:
word characters, whitespace and CJK ideographs. -/
def keepChar (c : Char) : Bool :=
  c.isAlphanum || c = '_' || c.isWhitespace || (0x4e00 ≤ c.toNat && c.toNat ≤ 0x9fff)

/-- Split a character list at whitespace.  Empty fragments (from leading or
repeated whitespace) are produced here and dropped by the length filter in
`normalizeWords`, exactly as `split(/\s+/)` followed by the length filter
drops them in the source. -/
def splitOnWs : List Char → List Char → List (List Char)
  | [], acc => [acc.reverse]
  | c :: rest, acc =>
    if c.isWhitespace then acc.reverse :: splitOnWs rest [] else splitOnWs rest (c :: acc)

/-- The `normalize` helper of `calculateSimilarity`: lower-case, keep only
word/whitespace/CJK characters, split on whitespace, drop tokens of
length ≤ 1. -/
def normalizeWords (s : String) : List String :=
  let kept := (s.data.map Char.toLower).filter keepChar
  ((splitOnWs kept []).map (fun cs => String.mk cs)).filter (fun w => 1 < w.length)

/-- Similarity threshold `TITLE_SIMILARITY_THRESHOLD = 0.7` (相似度阈值). -/
def TITLE_SIMILARITY_THRESHOLD : ℚ := 7/10

/-- Similarity threshold `CONTENT_SIMILARITY_THRESHOLD = 0.6` (declared in the source,
not read by any decision). -/
def CONTENT_SIMILARITY_THRESHOLD : ℚ := 3/5

/-- Jaccard similarity of the normalised token sets of two strings
(`calculateSimilarity`).  Returns 0 if either string is empty (JS falsy
check) or either token set is empty. -/
def calculateSimilarity (str1 str2 : String) : ℚ :=
  if str1 = "" ∨ str2 = "" then 0
  else
    let words1 := (normalizeWords str1).toFinset
    let words2 := (normalizeWords str2).toFinset
    if words1.card = 0 ∨ words2.card = 0 then 0
    else
      let intersection := (words1 ∩ words2).card
      let union := words1.card + words2.card - intersection
      (intersection : ℚ) / (union : ℚ)

/-- Title-similarity variant (`calculateTitleSimilarity`): the maximum of the
available comparisons and 0.  An absent comparison contributes 0, matching
`Math.max(...similarities, 0)` over the array of present comparisons. -/
def calculateTitleSimilarity (paidTitle : String) (paidTitleZh : Option String)
    (freeTitle : String) : ℚ :=
  let s1 := if paidTitle ≠ "" ∧ freeTitle ≠ "" then calculateSimilarity paidTitle freeTitle else 0
  let s2 :=
    match paidTitleZh with
    | some z => if z ≠ "" ∧ freeTitle ≠ "" then calculateSimilarity z freeTitle else 0
    | none => 0
  max (max s1 s2) 0

/-! ### Data model (types/index.ts, types/paid-sources.ts) -/

/-- A unit of free, already-collected content (`ContentItem`).  Fields not
read by the core under verification (urls, dates, language, metadata bag)
are omitted. -/
structure ContentItem where
  source : String
  type : String
  priority : Nat
  weight : ℚ
  title : Option String
  content : String
  author : Option String
deriving DecidableEq, Repr

/-- One platform's quote for a paid resource (`PriceInfo`).  Only the fields
the core reads are kept. -/
structure PriceInfo where
  priceInCNY : ℚ
  available : Bool
  chinaAccessible : Bool
  supportedPayments : List String
deriving DecidableEq, Repr

/-- A candidate commercial item (`PaidResource`). -/
structure PaidResource where
  title : String
  titleZh : Option String
  type : String
  author : Option String
  preview : Option String
  relevanceScore : ℚ
  contentQuality : ℚ
  priority : Nat
  weight : ℚ
  prices : List PriceInfo
deriving DecidableEq, Repr

/-- The four recommendation levels of `PriceComparison.recommendation`. -/
inductive RecLevel where
  | highlyRecommend
  | recommend
  | optional
  | skip
deriving DecidableEq, Repr

/-- Result of comparing prices for one resource (`PriceComparison`). -/
structure PriceComparison where
  resource : PaidResource
  bestPrice : Option PriceInfo
  bestPriceChina : Option PriceInfo
  allPrices : List PriceInfo
  recommendation : RecLevel
  recommendationReason : String
deriving DecidableEq, Repr

/-- Result of one duplicate check (`isDuplicateContent` return type). -/
structure DuplicateCheckResult where
  isDuplicate : Bool
  matchedContent : Option ContentItem
  similarityScore : ℚ
  matchReason : String
deriving DecidableEq, Repr

/-! ### Duplicate detector (deduplication.ts, `isDuplicateContent`) -/

/-- JS `Number.prototype.toFixed(0)`: the nearest integer, ties toward the
larger integer. -/
def toFixed0 (q : ℚ) : Int := Int.floor (q + 1/2)

/-- Render a similarity as the percentage string used in match reasons. -/
def pctString (q : ℚ) : String := toString (toFixed0 (q * 100))

/-- Running state of the corpus scan in `isDuplicateContent`. -/
structure DupState where
  bestMatch : Option ContentItem
  highest : ℚ
  reason : String

/-- Replace the running best when a strictly higher similarity is found
(the `if (x > highestSimilarity)` update pattern). -/
def consider (st : DupState) (c : ContentItem) (score : ℚ) (reason : String) : DupState :=
  if st.highest < score then ⟨some c, score, reason⟩ else st

/-- The same-author heuristic (step 3 of the corpus scan): authors present,
non-empty and equal case-insensitively, and title similarity above 0.5,
boost the running best to `max(current, titleSim + 0.2)`.  The source
updates the reason but not the best match in this branch. -/
def authorBoost (paid : PaidResource) (content : ContentItem) (titleSimilarity : ℚ)
    (st : DupState) : DupState :=
  match paid.author, content.author with
  | some a, some b =>
    if a ≠ "" ∧ b ≠ "" ∧ jsToLower a = jsToLower b then
      if 1/2 < titleSimilarity then
        ⟨st.bestMatch, max st.highest (titleSimilarity + 1/5), "同一作者的相似作品"⟩
      else st
    else st
  | _, _ => st

/-- Step 2 of the corpus scan: if the candidate has preview text and the
free item has content (JS truthiness on both), compare them and update the
running best. -/
def previewCheck (paid : PaidResource) (content : ContentItem) (st : DupState) : DupState :=
  match paid.preview with
  | some pv =>
    if pv ≠ "" ∧ content.content ≠ "" then
      consider st content (calculateSimilarity pv content.content)
        ("内容相似度: " ++ pctString (calculateSimilarity pv content.content) ++ "%")
    else st
  | none => st

/-- One iteration of the `for (const content of freeContents)` loop. -/
def dupStep (paid : PaidResource) (st : DupState) (content : ContentItem) : DupState :=
  let titleSimilarity := calculateTitleSimilarity paid.title paid.titleZh (content.title.getD "")
  authorBoost paid content titleSimilarity
    (previewCheck paid content
      (consider st content titleSimilarity
        ("标题相似度: " ++ pctString titleSimilarity ++ "%")))

/-- Check whether a paid resource duplicates collected free content
(`isDuplicateContent`, 检查付费资源是否与已有免费内容重复). -/
def isDuplicateContent (paidResource : PaidResource) (freeContents : List ContentItem) :
    DuplicateCheckResult :=
  let st := freeContents.foldl (dupStep paidResource) ⟨none, 0, ""⟩
  let isDup : Bool := decide (TITLE_SIMILARITY_THRESHOLD ≤ st.highest)
  ⟨isDup, st.bestMatch, st.highest, if isDup then st.reason else ""⟩

/-! ### Coverage analyzer (deduplication.ts, `analyzeFreeContentCoverage`) -/

/-- Coverage summary of the free corpus (`CoverageAnalysis`).  `byPriority`
models the JS record with absent keys reading as 0. -/
structure CoverageAnalysis where
  coveredTypes : Finset String
  byPriority : Nat → Nat
  missingHighPriorityTypes : List String
  totalCount : Nat
  hasEnoughPrimaryContent : Bool

/-- Reference list of high-priority content types (高优先级内容类型, P1/P2). -/
def highPriorityTypes : List String :=
  ["tweet", "interview", "speech", "biography", "book", "podcast"]

/-- Analyze the coverage of the crawled free content
(`analyzeFreeContentCoverage`, 分析已爬取免费内容的覆盖情况). -/
def analyzeFreeContentCoverage (freeContents : List ContentItem) : CoverageAnalysis :=
  let coveredTypes := freeContents.foldl (fun s c => insert c.type s) (∅ : Finset String)
  let byPriority := freeContents.foldl
    (fun f c => fun n => if n = c.priority then f c.priority + 1 else f n) (fun _ => 0)
  let missing := highPriorityTypes.filter (fun t => t ∉ coveredTypes)
  { coveredTypes := coveredTypes
    byPriority := byPriority
    missingHighPriorityTypes := missing
    totalCount := freeContents.length
    hasEnoughPrimaryContent := decide (10 ≤ byPriority 1 + byPriority 2) }

/-! ### Paid-resource filter (deduplication.ts, `filterPaidResources`) -/

/-- One entry of the `filtered` partition. -/
structure FilteredEntry where
  resource : PaidResource
  reason : String
  matchedFreeContent : Option ContentItem
deriving DecidableEq, Repr

/-- Aggregate counters of one filter run. -/
structure FilterStats where
  totalSearched : Nat
  duplicateCount : Nat
  lowPrioritySkipped : Nat
  recommendedCount : Nat
deriving DecidableEq, Repr

/-- Result of `filterPaidResources`. -/
structure FilteredPaidResources where
  recommended : List PriceComparison
  filtered : List FilteredEntry
  stats : FilterStats

/-- Map a paid-resource type to the nearest free content type
(`mapPaidTypeToContentType`, 将付费资源类型映射到内容类型). -/
def mapPaidTypeToContentType (paidType : String) : String :=
  if paidType = "ebook" then "book"
  else if paidType = "audiobook" then "book"
  else if paidType = "paper" then "paper"
  else if paidType = "interview" then "interview"
  else if paidType = "course" then "course"
  else if paidType = "database" then "database"
  else if paidType = "news_archive" then "news"
  else if paidType = "biography_full" then "biography"
  else paidType

/-- Step 4 of the filter loop: the recommendation-tier adjustment applied to
a candidate that will be recommended (`{ ...comparison }` copy with possibly
rewritten recommendation/reason; the `resource` field is shared). -/
def recommendAdjust (coverage : CoverageAnalysis) (comparison : PriceComparison) :
    PriceComparison :=
  let resource := comparison.resource
  let resourceType := mapPaidTypeToContentType resource.type
  let fillsGap := resourceType ∈ coverage.missingHighPriorityTypes
  if fillsGap ∧ resource.priority ≤ 2 then
    if comparison.recommendation = RecLevel.recommend then
      { comparison with
        recommendation := RecLevel.highlyRecommend
        recommendationReason :=
          "填补 " ++ resourceType ++ " 类型内容缺口，" ++ comparison.recommendationReason }
    else comparison
  else if coverage.hasEnoughPrimaryContent ∧ 2 < resource.priority then
    if comparison.recommendation = RecLevel.highlyRecommend then
      { comparison with
        recommendation := RecLevel.recommend
        recommendationReason := "已有较多一手资料，可作为补充" }
    else if comparison.recommendation = RecLevel.recommend then
      { comparison with
        recommendation := RecLevel.optional
        recommendationReason := "已有较多一手资料，非必需" }
    else comparison
  else comparison

/-- Intermediate accumulation of the filter loop. -/
structure FilterOutcome where
  recommended : List PriceComparison
  filtered : List FilteredEntry
  duplicateCount : Nat
  lowPrioritySkipped : Nat

/-- The `for (const comparison of paidComparisons)` loop of
`filterPaidResources`: each candidate is recorded as a duplicate, as a
low-priority skip (two sub-cases, in source order), or recommended after
adjustment. -/
def filterGo (freeContents : List ContentItem) (coverage : CoverageAnalysis) :
    List PriceComparison → FilterOutcome
  | [] => ⟨[], [], 0, 0⟩
  | comparison :: rest =>
    let out := filterGo freeContents coverage rest
    let resource := comparison.resource
    let dupeCheck := isDuplicateContent resource freeContents
    if dupeCheck.isDuplicate then
      ⟨out.recommended,
        ⟨resource, "与免费内容重复: " ++ dupeCheck.matchReason, dupeCheck.matchedContent⟩ ::
          out.filtered,
        out.duplicateCount + 1, out.lowPrioritySkipped⟩
    else if 2 < resource.priority ∧ coverage.hasEnoughPrimaryContent then
      ⟨out.recommended,
        ⟨resource, "已有足够一手资料，跳过优先级 P" ++ toString resource.priority ++ " 的付费内容",
          none⟩ :: out.filtered,
        out.duplicateCount, out.lowPrioritySkipped + 1⟩
    else if 2 < resource.priority ∧ resource.relevanceScore < 4/5 then
      ⟨out.recommended,
        ⟨resource,
          "优先级 P" ++ toString resource.priority ++ " 且相关度不够高 (" ++
            pctString resource.relevanceScore ++ "%)",
          none⟩ :: out.filtered,
        out.duplicateCount, out.lowPrioritySkipped + 1⟩
    else
      ⟨recommendAdjust coverage comparison :: out.recommended, out.filtered,
        out.duplicateCount, out.lowPrioritySkipped⟩

/-- Filter paid resources, the core deduplication logic
(`filterPaidResources`, 过滤付费资源 - 核心去重逻辑). -/
def filterPaidResources (paidComparisons : List PriceComparison)
    (freeContents : List ContentItem) (coverage : CoverageAnalysis) :
    FilteredPaidResources :=
  let out := filterGo freeContents coverage paidComparisons
  { recommended := out.recommended
    filtered := out.filtered
    stats :=
      { totalSearched := paidComparisons.length
        duplicateCount := out.duplicateCount
        lowPrioritySkipped := out.lowPrioritySkipped
        recommendedCount := out.recommended.length } }

/-! ### Content classifier (classifier.ts, `ContentClassifier.classify`)

Source and content type are modelled as strings (the TS string unions), so
the `default`/fallthrough behaviour of the two `switch` statements on
values outside the unions is captured.  Metadata is the bag of truthiness
flags the classifier reads; an absent bag reads every flag as false. -/

/-- Metadata flags read by the classifier. -/
structure ClassifierMetadata where
  isOwnChannel : Bool
  isSelfAuthored : Bool
  isAuthorized : Bool
  isOwnBlog : Bool
  verified : Bool
deriving DecidableEq, Repr

/-- Read a metadata flag, treating an absent bag as all-false
(`metadata?.flag` truthiness). -/
def mflag (metadata : Option ClassifierMetadata) (f : ClassifierMetadata → Bool) : Bool :=
  (metadata.map f).getD false

/-- Assign priority and weight from data source and content type
(`ContentClassifier.classify`, 根据数据源和内容类型自动分配优先级和权重).
First switch on `source` (its `default` branch assigns priority 5, weight
0.3), then the content-type switch may overwrite the result. -/
def classify (source : String) (type : String) (metadata : Option ClassifierMetadata) :
    Nat × ℚ :=
  let base : Nat × ℚ :=
    if source = "twitter" then (1, 1)
    else if source = "youtube" then
      -- both arms of the `isOwnChannel` test assign (1, 1.0)
      if mflag metadata ClassifierMetadata.isOwnChannel then (1, 1) else (1, 1)
    else if source = "wikipedia" then (4, 1/2)
    else if source = "news" then (3, 3/5)
    else if source = "book" then
      if type = "autobiography" ∨ mflag metadata ClassifierMetadata.isSelfAuthored then (2, 4/5)
      else if type = "biography" then
        if mflag metadata ClassifierMetadata.isAuthorized then (2, 4/5) else (3, 3/5)
      else (3, 3/5)
    else if source = "podcast" then (1, 1)
    else if source = "blog" then
      if mflag metadata ClassifierMetadata.isOwnBlog then (1, 1) else (5, 3/10)
    else (5, 3/10)
  if type = "tweet" ∨ type = "reply" then (1, 1)
  else if type = "retweet" then (1, 9/10)
  else if type = "interview" ∨ type = "speech" then (1, 1)
  else if type = "quote" then
    if mflag metadata ClassifierMetadata.verified then (1, 19/20) else (3, 3/5)
  else if type = "wiki" then (4, 1/2)
  else if type = "news" ∨ type = "article" then (3, 3/5)
  else base

/-! ### Price comparator (crawlers/paid/index.ts) -/

/-- Comparator of the in-place `allPrices.sort((a, b) => a.priceInCNY - b.priceInCNY)`;
`a` may stay before `b` iff the comparator is ≤ 0. -/
def priceLe (a b : PriceInfo) : Bool := decide (a.priceInCNY ≤ b.priceInCNY)

/-- The preferred Chinese payment methods of the best-China-price lookup. -/
def preferredPayments : List String := ["alipay", "wechat", "unionpay"]

/-- Generate the purchase recommendation (`generateRecommendation`,
生成购买推荐). -/
def generateRecommendation (resource : PaidResource) (bestPriceChina : Option PriceInfo) :
    RecLevel × String :=
  if 4/5 ≤ resource.relevanceScore ∧ 7/10 ≤ resource.contentQuality ∧ resource.priority ≤ 2 then
    match bestPriceChina with
    | some p =>
      if p.priceInCNY ≤ 100 then
        (RecLevel.highlyRecommend, "高相关性本人作品，价格合理，强烈推荐购买")
      else (RecLevel.highlyRecommend, "高相关性本人作品，对于理解其思想非常重要")
    | none => (RecLevel.highlyRecommend, "高相关性本人作品，对于理解其思想非常重要")
  else if 3/5 ≤ resource.relevanceScore ∧ 1/2 ≤ resource.contentQuality then
    match bestPriceChina with
    | some p =>
      if p.priceInCNY ≤ 50 then (RecLevel.recommend, "相关性较高，价格实惠，推荐购买")
      else (RecLevel.recommend, "相关性较高，内容有价值")
    | none => (RecLevel.recommend, "相关性较高，内容有价值")
  else if 2/5 ≤ resource.relevanceScore then (RecLevel.optional, "相关性一般，可作为补充资料")
  else (RecLevel.skip, "相关性较低，建议跳过")

/-- Price comparison of one resource (`getPriceComparison`, 获取资源的价格比较),
with the post-call state of the
resource made explicit: `allPrices` aliases `resource.prices`, so the
in-place sort reorders the resource's attached price list.  The
`crawler.comparePrices` network lookup taken when the price list is empty is
an out-of-scope platform adapter; it is modelled as producing no quotes
(sorting the empty list), which also leaves the resource unchanged in that
branch exactly as in the source. -/
def getPriceComparison (resource : PaidResource) : PaidResource × PriceComparison :=
  let allPrices := List.mergeSort resource.prices priceLe
  let resourceAfter := { resource with prices := allPrices }
  let bestPrice := allPrices.find? (fun p => p.available)
  let bestPriceChina :=
    match allPrices.find? (fun p =>
        p.available && p.chinaAccessible &&
          p.supportedPayments.any (fun pm => decide (pm ∈ preferredPayments))) with
    | some p => some p
    | none => allPrices.find? (fun p => p.available && p.chinaAccessible)
  let recommendation := generateRecommendation resource bestPriceChina
  (resourceAfter,
    { resource := resourceAfter
      bestPrice := bestPrice
      bestPriceChina := bestPriceChina
      allPrices := allPrices
      recommendation := recommendation.1
      recommendationReason := recommendation.2 })

/-- The `recommendOrder` table of the batch sort. -/
def recOrder : RecLevel → Nat
  | RecLevel.highlyRecommend => 0
  | RecLevel.recommend => 1
  | RecLevel.optional => 2
  | RecLevel.skip => 3

/-- Extended price `a.bestPriceChina?.priceInCNY || Infinity` of the batch
comparator, with `none` standing for `Infinity`.  A quote priced 0 is falsy
in JS, so `||` replaces it by `Infinity` as well. -/
def effPriceChina (c : PriceComparison) : Option ℚ :=
  match c.bestPriceChina with
  | none => none
  | some p => if p.priceInCNY = 0 then none else some p.priceInCNY

/-- Order on `Option ℚ` with `none` as `+Infinity` (for two `Infinity`s the
JS comparator computes `NaN`, which `SortCompare` coerces to `+0`, i.e.
equal). -/
def infLe : Option ℚ → Option ℚ → Bool
  | _, none => true
  | none, some _ => false
  | some a, some b => decide (a ≤ b)

/-- Comparator of the batch sort: by recommendation order, then by
China-best price with missing/zero prices as `Infinity`; `a` may stay
before `b` iff the JS comparator is ≤ 0. -/
def cmpLe (a b : PriceComparison) : Bool :=
  decide (recOrder a.recommendation < recOrder b.recommendation) ||
    (decide (recOrder a.recommendation = recOrder b.recommendation) &&
      infLe (effPriceChina a) (effPriceChina b))

/-- Batch price comparison (`batchPriceComparison`, 批量获取价格比较):
price every resource (the
per-resource try/catch never fires in the pure model), then sort by the
batch comparator (`Array.prototype.sort` is stable, modelled by
`mergeSort`). -/
def batchPriceComparison (resources : List PaidResource) : List PriceComparison :=
  List.mergeSort (resources.map (fun r => (getPriceComparison r).2)) cmpLe

/-! ### Lemmas about the similarity scorer -/

theorem calculateSimilarity_nonneg (a b : String) : 0 ≤ calculateSimilarity a b := by
  simp only [calculateSimilarity]
  split_ifs with h1 h2
  · exact le_rfl
  · exact le_rfl
  · positivity

theorem calculateSimilarity_le_one (a b : String) : calculateSimilarity a b ≤ 1 := by
  simp only [calculateSimilarity]
  split_ifs with h1 h2
  · norm_num
  · norm_num
  · rw [not_or] at h2
    have hi1 : ((normalizeWords a).toFinset ∩ (normalizeWords b).toFinset).card ≤
        (normalizeWords a).toFinset.card :=
      Finset.card_le_card Finset.inter_subset_left
    have hi2 : ((normalizeWords a).toFinset ∩ (normalizeWords b).toFinset).card ≤
        (normalizeWords b).toFinset.card :=
      Finset.card_le_card Finset.inter_subset_right
    have hc1 : (normalizeWords a).toFinset.card ≠ 0 := h2.1
    have hupos : 0 < (normalizeWords a).toFinset.card + (normalizeWords b).toFinset.card -
        ((normalizeWords a).toFinset ∩ (normalizeWords b).toFinset).card := by omega
    rw [div_le_one (by exact_mod_cast hupos)]
    exact_mod_cast (by omega :
      ((normalizeWords a).toFinset ∩ (normalizeWords b).toFinset).card ≤
        (normalizeWords a).toFinset.card + (normalizeWords b).toFinset.card -
          ((normalizeWords a).toFinset ∩ (normalizeWords b).toFinset).card)

theorem calculateSimilarity_self (a : String) (h : a ≠ "") (hW : normalizeWords a ≠ []) :
    calculateSimilarity a a = 1 := by
  simp only [calculateSimilarity]
  rw [if_neg (by simp [h])]
  have hc : (normalizeWords a).toFinset.card ≠ 0 := by
    simp only [Ne, Finset.card_eq_zero, List.toFinset_eq_empty_iff]
    exact hW
  rw [if_neg (by simp [hc])]
  rw [Finset.inter_self]
  have hu : (normalizeWords a).toFinset.card + (normalizeWords a).toFinset.card -
      (normalizeWords a).toFinset.card = (normalizeWords a).toFinset.card := by omega
  rw [hu, div_self (by exact_mod_cast hc)]

theorem calculateTitleSimilarity_nonneg (t : String) (z : Option String) (f : String) :
    0 ≤ calculateTitleSimilarity t z f := by
  simp only [calculateTitleSimilarity]
  exact le_max_right _ _

theorem calculateTitleSimilarity_le_one (t : String) (z : Option String) (f : String) :
    calculateTitleSimilarity t z f ≤ 1 := by
  simp only [calculateTitleSimilarity]
  refine max_le (max_le ?_ ?_) (by norm_num)
  · split_ifs
    · exact calculateSimilarity_le_one _ _
    · norm_num
  · rcases z with _ | z
    · norm_num
    · simp only
      split_ifs
      · exact calculateSimilarity_le_one _ _
      · norm_num

theorem calcSim_le_titleSim (t : String) (z : Option String) (f : String)
    (ht : t ≠ "") (hf : f ≠ "") :
    calculateSimilarity t f ≤ calculateTitleSimilarity t z f := by
  simp only [calculateTitleSimilarity]
  refine le_trans ?_ (le_max_left _ _)
  refine le_trans ?_ (le_max_left _ _)
  rw [if_pos ⟨ht, hf⟩]

/-! ### Lemmas about the duplicate-detector scan state -/

theorem consider_le (st : DupState) (c : ContentItem) (s : ℚ) (r : String) :
    st.highest ≤ (consider st c s r).highest := by
  unfold consider
  split
  next h => exact le_of_lt h
  next => exact le_rfl

theorem consider_ge (st : DupState) (c : ContentItem) (s : ℚ) (r : String) :
    s ≤ (consider st c s r).highest := by
  unfold consider
  split
  next => exact le_rfl
  next h => exact le_of_not_lt h

theorem consider_cases (st : DupState) (c : ContentItem) (s : ℚ) (r : String) :
    (consider st c s r).highest = s ∨ (consider st c s r).highest = st.highest := by
  unfold consider
  split
  · exact Or.inl rfl
  · exact Or.inr rfl

theorem previewCheck_le (p : PaidResource) (c : ContentItem) (st : DupState) :
    st.highest ≤ (previewCheck p c st).highest := by
  unfold previewCheck
  split
  · split_ifs
    · exact consider_le _ _ _ _
    · exact le_rfl
  · exact le_rfl

theorem previewCheck_cases (p : PaidResource) (c : ContentItem) (st : DupState) :
    (∃ pv, p.preview = some pv ∧
        (previewCheck p c st).highest = calculateSimilarity pv c.content) ∨
      (previewCheck p c st).highest = st.highest := by
  unfold previewCheck
  split
  next pv heq =>
    split_ifs
    · rcases consider_cases st c (calculateSimilarity pv c.content)
          ("内容相似度: " ++ pctString (calculateSimilarity pv c.content) ++ "%") with h | h
      · exact Or.inl ⟨pv, heq, h⟩
      · exact Or.inr h
    · exact Or.inr rfl
  next => exact Or.inr rfl

theorem authorBoost_le (p : PaidResource) (c : ContentItem) (t : ℚ) (st : DupState) :
    st.highest ≤ (authorBoost p c t st).highest := by
  unfold authorBoost
  split
  · split_ifs
    · exact le_max_left _ _
    · exact le_rfl
    · exact le_rfl
  · exact le_rfl

theorem authorBoost_cases (p : PaidResource) (c : ContentItem) (t : ℚ) (st : DupState) :
    (authorBoost p c t st).highest = st.highest ∨
      (1/2 < t ∧ (authorBoost p c t st).highest = max st.highest (t + 1/5)) := by
  unfold authorBoost
  split
  · split_ifs with h1 h2
    · exact Or.inr ⟨h2, rfl⟩
    · exact Or.inl rfl
    · exact Or.inl rfl
  · exact Or.inl rfl

theorem authorBoost_boost (p : PaidResource) (c : ContentItem) (t : ℚ) (st : DupState)
    (a b : String) (hpa : p.author = some a) (hca : c.author = some b)
    (hna : a ≠ "") (hnb : b ≠ "") (heq : jsToLower a = jsToLower b) (ht : 1/2 < t) :
    t + 1/5 ≤ (authorBoost p c t st).highest := by
  unfold authorBoost
  rw [hpa, hca]
  simp only [if_pos (And.intro hna (And.intro hnb heq)), if_pos ht]
  exact le_max_right _ _

theorem dupStep_le (p : PaidResource) (st : DupState) (c : ContentItem) :
    st.highest ≤ (dupStep p st c).highest := by
  simp only [dupStep]
  exact le_trans (consider_le _ _ _ _)
    (le_trans (previewCheck_le _ _ _) (authorBoost_le _ _ _ _))

theorem dupStep_ge_titleSim (p : PaidResource) (st : DupState) (c : ContentItem) :
    calculateTitleSimilarity p.title p.titleZh (c.title.getD "") ≤ (dupStep p st c).highest := by
  simp only [dupStep]
  exact le_trans (consider_ge _ _ _ _)
    (le_trans (previewCheck_le _ _ _) (authorBoost_le _ _ _ _))

theorem dupStep_ge_boost (p : PaidResource) (st : DupState) (c : ContentItem)
    (a b : String) (hpa : p.author = some a) (hca : c.author = some b)
    (hna : a ≠ "") (hnb : b ≠ "") (heq : jsToLower a = jsToLower b)
    (ht : 1/2 < calculateTitleSimilarity p.title p.titleZh (c.title.getD "")) :
    calculateTitleSimilarity p.title p.titleZh (c.title.getD "") + 1/5 ≤
      (dupStep p st c).highest := by
  simp only [dupStep]
  exact authorBoost_boost _ _ _ _ a b hpa hca hna hnb heq ht

theorem dupStep_bounds (p : PaidResource) (st : DupState) (c : ContentItem)
    (h0 : 0 ≤ st.highest) (h1 : st.highest ≤ 6/5) :
    0 ≤ (dupStep p st c).highest ∧ (dupStep p st c).highest ≤ 6/5 := by
  constructor
  · exact le_trans h0 (dupStep_le _ _ _)
  · simp only [dupStep]
    have hT0 := calculateTitleSimilarity_nonneg p.title p.titleZh (c.title.getD "")
    have hT1 := calculateTitleSimilarity_le_one p.title p.titleZh (c.title.getD "")
    set t := calculateTitleSimilarity p.title p.titleZh (c.title.getD "") with hTdef
    set rsn := "标题相似度: " ++ pctString t ++ "%" with hrsn
    set st1 := consider st c t rsn with hst1
    set st2 := previewCheck p c st1 with hst2
    have hs1 : st1.highest ≤ 6/5 := by
      rcases consider_cases st c t rsn with h | h <;> rw [hst1, h]
      · linarith
      · exact h1
    have hs2 : st2.highest ≤ 6/5 := by
      rcases previewCheck_cases p c st1 with ⟨pv, _, h⟩ | h <;> rw [hst2, h]
      · have := calculateSimilarity_le_one pv c.content
        linarith
      · exact hs1
    rcases authorBoost_cases p c t st2 with h | ⟨_, h⟩ <;> rw [h]
    · exact hs2
    · exact max_le hs2 (by linarith)

theorem foldl_dupStep_le (p : PaidResource) (l : List ContentItem) :
    ∀ st : DupState, st.highest ≤ (l.foldl (dupStep p) st).highest := by
  induction l with
  | nil => intro st; exact le_rfl
  | cons c rest ih =>
    intro st
    simp only [List.foldl_cons]
    exact le_trans (dupStep_le p st c) (ih _)

theorem foldl_dupStep_ge_of_mem (p : PaidResource) (l : List ContentItem) (c : ContentItem)
    (x : ℚ) (hmem : c ∈ l) (hstep : ∀ st : DupState, x ≤ (dupStep p st c).highest) :
    ∀ st : DupState, x ≤ (l.foldl (dupStep p) st).highest := by
  induction l with
  | nil => cases hmem
  | cons d rest ih =>
    intro st
    simp only [List.foldl_cons]
    rcases List.mem_cons.mp hmem with h | h
    · subst h
      exact le_trans (hstep st) (foldl_dupStep_le p rest _)
    · exact ih h _

theorem foldl_dupStep_bounds (p : PaidResource) (l : List ContentItem) :
    ∀ st : DupState, 0 ≤ st.highest → st.highest ≤ 6/5 →
      0 ≤ (l.foldl (dupStep p) st).highest ∧ (l.foldl (dupStep p) st).highest ≤ 6/5 := by
  induction l with
  | nil => intro st h0 h1; exact ⟨h0, h1⟩
  | cons c rest ih =>
    intro st h0 h1
    simp only [List.foldl_cons]
    obtain ⟨g0, g1⟩ := dupStep_bounds p st c h0 h1
    exact ih _ g0 g1

/-! ### Claim C9: the similarity scorer is symmetric -/

/-- C9: for all input strings `a` and `b`,
`calculateSimilarity a b = calculateSimilarity b a`. -/
theorem calculateSimilarity_symm (a b : String) :
    calculateSimilarity a b = calculateSimilarity b a := by
  simp only [calculateSimilarity]
  rcases em (a = "") with h1 | h1
  · rw [if_pos (show a = "" ∨ b = "" from Or.inl h1),
      if_pos (show b = "" ∨ a = "" from Or.inr h1)]
  rcases em (b = "") with h2 | h2
  · rw [if_pos (show a = "" ∨ b = "" from Or.inr h2),
      if_pos (show b = "" ∨ a = "" from Or.inl h2)]
  rw [if_neg (show ¬ (a = "" ∨ b = "") by tauto),
    if_neg (show ¬ (b = "" ∨ a = "") by tauto)]
  rcases em ((normalizeWords a).toFinset.card = 0) with h3 | h3
  · rw [if_pos (show (normalizeWords a).toFinset.card = 0 ∨
        (normalizeWords b).toFinset.card = 0 from Or.inl h3),
      if_pos (show (normalizeWords b).toFinset.card = 0 ∨
        (normalizeWords a).toFinset.card = 0 from Or.inr h3)]
  rcases em ((normalizeWords b).toFinset.card = 0) with h4 | h4
  · rw [if_pos (show (normalizeWords a).toFinset.card = 0 ∨
        (normalizeWords b).toFinset.card = 0 from Or.inr h4),
      if_pos (show (normalizeWords b).toFinset.card = 0 ∨
        (normalizeWords a).toFinset.card = 0 from Or.inl h4)]
  rw [if_neg (show ¬ ((normalizeWords a).toFinset.card = 0 ∨
      (normalizeWords b).toFinset.card = 0) by tauto),
    if_neg (show ¬ ((normalizeWords b).toFinset.card = 0 ∨
      (normalizeWords a).toFinset.card = 0) by tauto)]
  rw [Finset.inter_comm,
    Nat.add_comm ((normalizeWords a).toFinset.card) ((normalizeWords b).toFinset.card)]

/-! ### Claim C10: duplicate check against an empty corpus -/

/-- C10: for every candidate, `isDuplicateContent` on an empty free corpus
returns `isDuplicate = false`, no matched content, similarity 0 and an empty
match reason. -/
theorem isDuplicateContent_empty_corpus (p : PaidResource) :
    isDuplicateContent p [] = ⟨false, none, 0, ""⟩ := by
  have h : ¬ (TITLE_SIMILARITY_THRESHOLD ≤ (0 : ℚ)) := by norm_num [TITLE_SIMILARITY_THRESHOLD]
  simp [isDuplicateContent, h]

/-! ### Claim C3: range of similarityScore

The claim states the score lies in `[0, 1]`.  The same-author boost adds
`0.2` to a title similarity that may already be `1`, so the score can reach
`1.2`; the claim is refuted at a concrete input below and the corrected
bound `[0, 1.2]` is proved. -/

/-- Candidate whose title matches a free item exactly and whose author
matches the free item's author case-insensitively. -/
def paidBoost : PaidResource :=
  ⟨"deep work", none, "ebook", some "Cal Newport", none, 9/10, 4/5, 2, 4/5, []⟩

/-- Free item with the identical title and the same author in different
case. -/
def itemBoost : ContentItem :=
  ⟨"book", "book", 2, 4/5, some "deep work", "", some "cal newport"⟩

/-- C3 counterexample: at `paidBoost`/`itemBoost` the returned
similarityScore is 6/5, outside the claimed interval `[0, 1]`. -/
theorem similarityScore_exceeds_one :
    ¬ ((isDuplicateContent paidBoost [itemBoost]).similarityScore ≤ 1) := by
  with_unfolding_all decide

/-- C3 amended: the similarityScore of every duplicate check lies in
`[0, 6/5]` (the same-author boost can push it above 1, but never above
1.2). -/
theorem similarityScore_bounds (p : PaidResource) (free : List ContentItem) :
    0 ≤ (isDuplicateContent p free).similarityScore ∧
      (isDuplicateContent p free).similarityScore ≤ 6/5 := by
  simp only [isDuplicateContent]
  exact foldl_dupStep_bounds p free ⟨none, 0, ""⟩ le_rfl (by norm_num)

/-! ### Claim C6: identical titles are flagged duplicate

As stated the claim fails: a title whose normalisation has no token of
length ≥ 2 (e.g. `"a"`) has similarity 0 to itself.  With a non-empty
normalised token set the detector flags the candidate with similarity at
least 1 (the same-author boost can raise the recorded score above 1, so
`= 1` is weakened to `≥ 1`). -/

/-- Single-letter-title candidate: its title normalises to no tokens. -/
def paidA : PaidResource := ⟨"a", none, "ebook", none, none, 9/10, 4/5, 2, 4/5, []⟩

/-- Free item carrying the identical single-letter title. -/
def itemA : ContentItem := ⟨"book", "book", 2, 4/5, some "a", "", none⟩

/-- C6 counterexample: candidate and free item have character-for-character
identical titles, yet the candidate is not flagged duplicate (the score is
0, not 1). -/
theorem identical_title_not_flagged :
    itemA.title.getD "" = paidA.title ∧
      (isDuplicateContent paidA [itemA]).isDuplicate = false := by
  exact ⟨rfl, by with_unfolding_all decide⟩

/-- C6 amended: if some free item's title is character-for-character
identical to the candidate's title and that title normalises to a non-empty
token set, the candidate is flagged duplicate with similarityScore ≥ 1. -/
theorem identical_title_duplicate (p : PaidResource) (free : List ContentItem)
    (c : ContentItem) (hmem : c ∈ free) (htitle : c.title.getD "" = p.title)
    (hW : normalizeWords p.title ≠ []) :
    (isDuplicateContent p free).isDuplicate = true ∧
      1 ≤ (isDuplicateContent p free).similarityScore := by
  have hne : p.title ≠ "" := by
    intro h
    apply hW
    rw [h]
    with_unfolding_all decide
  have hsim : calculateSimilarity p.title p.title = 1 := calculateSimilarity_self _ hne hW
  have htS : 1 ≤ calculateTitleSimilarity p.title p.titleZh (c.title.getD "") := by
    rw [htitle]
    have hle := calcSim_le_titleSim p.title p.titleZh p.title hne hne
    rw [hsim] at hle
    exact hle
  have hstep : ∀ st : DupState, (1 : ℚ) ≤ (dupStep p st c).highest := fun st =>
    le_trans htS (dupStep_ge_titleSim p st c)
  have hfin := foldl_dupStep_ge_of_mem p free c 1 hmem hstep ⟨none, 0, ""⟩
  constructor
  · show decide (TITLE_SIMILARITY_THRESHOLD ≤
      (free.foldl (dupStep p) ⟨none, 0, ""⟩).highest) = true
    exact decide_eq_true (le_trans (by norm_num [TITLE_SIMILARITY_THRESHOLD]) hfin)
  · exact hfin

/-- Candidate with a two-token title identical to the free item's. -/
def paidDeep : PaidResource :=
  ⟨"deep work", none, "ebook", none, none, 9/10, 4/5, 2, 4/5, []⟩

/-- Free item with the identical two-token title. -/
def itemDeep : ContentItem :=
  ⟨"book", "book", 2, 4/5, some "deep work", "some text", none⟩

/-- C6 witness: the amended theorem applied to the `"deep work"` pair. -/
theorem identical_title_duplicate_witness :
    (isDuplicateContent paidDeep [itemDeep]).isDuplicate = true ∧
      1 ≤ (isDuplicateContent paidDeep [itemDeep]).similarityScore :=
  identical_title_duplicate paidDeep [itemDeep] itemDeep (List.mem_singleton.mpr rfl) rfl
    (by decide)

/-! ### Claim C7: the same-author boost flags a 0.55 title similarity -/

/-- C7: if the candidate's author and a free item's author are both present,
non-empty and equal case-insensitively, and the title similarity between
candidate and that item is exactly 0.55, the candidate is flagged duplicate
(0.55 + 0.2 = 0.75 ≥ 0.7). -/
theorem author_boost_duplicate (p : PaidResource) (free : List ContentItem)
    (c : ContentItem) (a b : String) (hmem : c ∈ free)
    (hpa : p.author = some a) (hca : c.author = some b)
    (hna : a ≠ "") (hnb : b ≠ "") (heq : jsToLower a = jsToLower b)
    (hsim : calculateTitleSimilarity p.title p.titleZh (c.title.getD "") = 11/20) :
    (isDuplicateContent p free).isDuplicate = true := by
  have hstep : ∀ st : DupState, (3/4 : ℚ) ≤ (dupStep p st c).highest := by
    intro st
    have h := dupStep_ge_boost p st c a b hpa hca hna hnb heq (by rw [hsim]; norm_num)
    rw [hsim] at h
    linarith
  have hfin := foldl_dupStep_ge_of_mem p free c (3/4) hmem hstep ⟨none, 0, ""⟩
  show decide (TITLE_SIMILARITY_THRESHOLD ≤
    (free.foldl (dupStep p) ⟨none, 0, ""⟩).highest) = true
  exact decide_eq_true (le_trans (by norm_num [TITLE_SIMILARITY_THRESHOLD]) hfin)

/-- Candidate with 15 distinct tokens (11 shared with the free item) and
author "Jane Doe". -/
def paidJane : PaidResource :=
  ⟨"wa wb wc wd we wf wg wh wi wj wk xa xb xc xd", none, "ebook", some "Jane Doe", none,
    9/10, 4/5, 2, 4/5, []⟩

/-- Free item with 16 distinct tokens (11 shared), author "jane doe":
Jaccard title similarity 11/20 = 0.55. -/
def itemJane : ContentItem :=
  ⟨"book", "book", 2, 4/5, some "wa wb wc wd we wf wg wh wi wj wk ya yb yc yd ye", "",
    some "jane doe"⟩

/-- C7 witness: the title similarity of the pair is exactly 0.55 and the
candidate is flagged duplicate. -/
theorem author_boost_duplicate_witness :
    calculateTitleSimilarity paidJane.title paidJane.titleZh (itemJane.title.getD "") = 11/20 ∧
      (isDuplicateContent paidJane [itemJane]).isDuplicate = true :=
  ⟨by with_unfolding_all decide,
    author_boost_duplicate paidJane [itemJane] itemJane "Jane Doe" "jane doe"
      (List.mem_singleton.mpr rfl) rfl rfl (by decide) (by decide) (by decide)
      (by with_unfolding_all decide)⟩

/-! ### Claims C1 and C2: the filter loop -/

theorem recommendAdjust_resource (cov : CoverageAnalysis) (cmp : PriceComparison) :
    (recommendAdjust cov cmp).resource = cmp.resource := by
  simp only [recommendAdjust]
  split_ifs <;> rfl

/-- C1: the stats of `filterPaidResources` satisfy
`recommendedCount + duplicateCount + lowPrioritySkipped = totalSearched`,
and `totalSearched` is the length of the candidate list. -/
theorem filterPaidResources_stats (cs : List PriceComparison) (free : List ContentItem)
    (cov : CoverageAnalysis) :
    (filterPaidResources cs free cov).stats.recommendedCount +
        (filterPaidResources cs free cov).stats.duplicateCount +
        (filterPaidResources cs free cov).stats.lowPrioritySkipped =
      (filterPaidResources cs free cov).stats.totalSearched ∧
      (filterPaidResources cs free cov).stats.totalSearched = cs.length := by
  refine ⟨?_, rfl⟩
  show (filterGo free cov cs).recommended.length + (filterGo free cov cs).duplicateCount +
      (filterGo free cov cs).lowPrioritySkipped = cs.length
  induction cs with
  | nil => rfl
  | cons cmp rest ih =>
    simp only [filterGo]
    split
    · simp only [List.length_cons]
      omega
    · split
      · simp only [List.length_cons]
        omega
      · split
        · simp only [List.length_cons]
          omega
        · simp only [List.length_cons]
          omega

/-- C2: a candidate flagged duplicate by `isDuplicateContent` never appears
in the `recommended` partition of `filterPaidResources`: every recommended
comparison's resource tests non-duplicate. -/
theorem recommended_not_duplicate (cs : List PriceComparison) (free : List ContentItem)
    (cov : CoverageAnalysis) (c : PriceComparison)
    (hc : c ∈ (filterPaidResources cs free cov).recommended) :
    (isDuplicateContent c.resource free).isDuplicate = false := by
  have h : ∀ cs : List PriceComparison, c ∈ (filterGo free cov cs).recommended →
      (isDuplicateContent c.resource free).isDuplicate = false := by
    intro cs
    induction cs with
    | nil => intro h; cases h
    | cons cmp rest ih =>
      intro hmem
      simp only [filterGo] at hmem
      split at hmem
      · exact ih hmem
      · split at hmem
        · exact ih hmem
        · split at hmem
          · exact ih hmem
          · rcases List.mem_cons.mp hmem with h | h
            · subst h
              rw [recommendAdjust_resource]
              next hdup _ _ => exact Bool.not_eq_true _ |>.mp hdup
            · exact ih h
  exact h cs hc

/-- A coverage analysis with nothing covered and primary content judged
insufficient (any value is accepted by the filter; this one is the analysis
of an empty corpus). -/
def covEmpty : CoverageAnalysis := ⟨∅, fun _ => 0, highPriorityTypes, 0, false⟩

/-- A priority-1 candidate comparison that the filter recommends. -/
def cmpPrimary : PriceComparison :=
  ⟨⟨"primary book", none, "ebook", none, none, 9/10, 4/5, 1, 1, []⟩, none, none, [],
    RecLevel.recommend, "seed"⟩

/-- C2 witness: the theorem applied to a concrete recommended candidate. -/
theorem recommended_not_duplicate_witness :
    (isDuplicateContent (recommendAdjust covEmpty cmpPrimary).resource []).isDuplicate = false :=
  recommended_not_duplicate [cmpPrimary] [] covEmpty (recommendAdjust covEmpty cmpPrimary)
    (by
      have h : (filterPaidResources [cmpPrimary] [] covEmpty).recommended =
          [recommendAdjust covEmpty cmpPrimary] := by with_unfolding_all rfl
      rw [h]
      exact List.mem_singleton.mpr rfl)

/-! ### Claim C4: classifier fallback for unknown source/type

The claim states the fallback is tier 4 / weight 0.5.  The `default` branch
of the source switch assigns tier 5 / weight 0.3 (the initial 4/0.5 local
values are overwritten by every branch of the switch), so the claim is
refuted and the corrected fallback 5/0.3 is proved. -/

/-- C4 counterexample: for the out-of-enumeration source `"rss"` and the
no-override type `"other"`, `classify` does not return `(4, 0.5)` (it
returns `(5, 0.3)`). -/
theorem classify_unknown_not_tier4 : classify "rss" "other" none ≠ (4, 1/2) := by
  with_unfolding_all decide

/-- C4 amended: for every source outside the enumerated set and every
content type matching no type-stage override rule, `classify` returns
priority 5 and weight 0.3. -/
theorem classify_unknown_default (source type : String) (md : Option ClassifierMetadata)
    (hs : source ∉ ["twitter", "youtube", "wikipedia", "news", "book", "podcast", "blog"])
    (ht : type ∉ ["tweet", "reply", "retweet", "interview", "speech", "quote", "wiki",
      "news", "article"]) :
    classify source type md = (5, 3/10) := by
  simp only [List.mem_cons, List.not_mem_nil, or_false, not_or] at hs ht
  obtain ⟨hs1, hs2, hs3, hs4, hs5, hs6, hs7⟩ := hs
  obtain ⟨ht1, ht2, ht3, ht4, ht5, ht6, ht7, ht8, ht9⟩ := ht
  simp [classify, hs1, hs2, hs3, hs4, hs5, hs6, hs7, ht1, ht2, ht3, ht4, ht5, ht6, ht7,
    ht8, ht9]

/-- C4 witness: the amended fallback evaluated at `("rss", "other")`. -/
theorem classify_unknown_default_witness : classify "rss" "other" none = (5, 3/10) :=
  classify_unknown_default "rss" "other" none (by decide) (by decide)

/-! ### Claim C5: the core never mutates its inputs

`filterPaidResources` and the duplicate detector read their inputs only,
but `getPriceComparison` sorts the resource's attached price list in place
(`allPrices` aliases `resource.prices` and `Array.prototype.sort` mutates),
so an input with an unsorted price list is changed by the call.  The
counterexample exhibits this; the amended theorem shows the mutation is
exactly a stable re-sort of the price list with every other field
unchanged. -/

/-- Resource whose two quotes are out of price order. -/
def resourceUnsorted : PaidResource :=
  ⟨"course x", none, "course", none, none, 1/2, 1/2, 3, 1/2,
    [⟨9, true, true, ["alipay"]⟩, ⟨3, true, true, ["alipay"]⟩]⟩

/-- C5 counterexample: after `getPriceComparison` the input resource is
changed (its price list has been reordered in place). -/
theorem getPriceComparison_mutates : (getPriceComparison resourceUnsorted).1 ≠ resourceUnsorted := by
  with_unfolding_all decide

/-- C5 amended: the only input mutation in the pipeline is that
`getPriceComparison` stably sorts the resource's attached price list by
ascending CNY price; the post-call resource carries a permutation of the
original quotes and agrees with the original on every other field. -/
theorem getPriceComparison_mutation_shape (r : PaidResource) :
    (getPriceComparison r).1 = { r with prices := List.mergeSort r.prices priceLe } ∧
      ((getPriceComparison r).1).prices.Perm r.prices := by
  refine ⟨rfl, ?_⟩
  show (List.mergeSort r.prices priceLe).Perm r.prices
  exact List.mergeSort_perm r.prices priceLe

/-! ### Claim C8: order of the batch comparison

The claim states the result is ordered by recommendation tier, then by
ascending China-best price with missing prices last.  The comparator reads
`bestPriceChina?.priceInCNY || Infinity`, and `||` also replaces a 0 price
by `Infinity`, so a zero-priced quote sorts last instead of first; the
claim is refuted at such an input.  The amended ordering (missing or
zero-priced region quotes last) is proved, together with the fact that the
output is a permutation of the priced inputs. -/

theorem infLe_trans (a b c : Option ℚ) (h1 : infLe a b = true) (h2 : infLe b c = true) :
    infLe a c = true := by
  rcases a with _ | x <;> rcases b with _ | y <;> rcases c with _ | z <;>
    simp_all [infLe, decide_eq_true_eq]
  linarith

theorem infLe_total (a b : Option ℚ) : (infLe a b || infLe b a) = true := by
  rcases a with _ | x <;> rcases b with _ | y <;> simp_all [infLe, decide_eq_true_eq]
  exact le_total x y

theorem cmpLe_trans (a b c : PriceComparison) (h1 : cmpLe a b = true)
    (h2 : cmpLe b c = true) : cmpLe a c = true := by
  simp only [cmpLe, Bool.or_eq_true, Bool.and_eq_true, decide_eq_true_eq] at h1 h2 ⊢
  rcases h1 with h1 | ⟨h1e, h1p⟩ <;> rcases h2 with h2 | ⟨h2e, h2p⟩
  · exact Or.inl (lt_trans h1 h2)
  · exact Or.inl (lt_of_lt_of_le h1 (le_of_eq h2e))
  · exact Or.inl (lt_of_le_of_lt (le_of_eq h1e) h2)
  · exact Or.inr ⟨h1e.trans h2e, infLe_trans _ _ _ h1p h2p⟩

theorem cmpLe_total (a b : PriceComparison) : (cmpLe a b || cmpLe b a) = true := by
  simp only [cmpLe, Bool.or_eq_true, Bool.and_eq_true, decide_eq_true_eq]
  rcases Nat.lt_trichotomy (recOrder a.recommendation) (recOrder b.recommendation) with
    h | h | h
  · exact Or.inl (Or.inl h)
  · rcases Bool.or_eq_true _ _ |>.mp (infLe_total (effPriceChina a) (effPriceChina b)) with
      hp | hp
    · exact Or.inl (Or.inr ⟨h, hp⟩)
    · exact Or.inr (Or.inr ⟨h.symm, hp⟩)
  · exact Or.inr (Or.inl h)

/-- C8 amended: `batchPriceComparison` returns a permutation of the priced
inputs, pairwise ordered by recommendation tier (highly_recommend <
recommend < optional < skip) and, within equal tiers, by ascending
China-best price where a missing — or zero-priced, which `||` conflates
with missing — region quote counts as infinite and therefore sorts last. -/
theorem batchPriceComparison_sorted (resources : List PaidResource) :
    (batchPriceComparison resources).Perm
        (resources.map (fun r => (getPriceComparison r).2)) ∧
      (batchPriceComparison resources).Pairwise (fun a b =>
        recOrder a.recommendation < recOrder b.recommendation ∨
          (recOrder a.recommendation = recOrder b.recommendation ∧
            infLe (effPriceChina a) (effPriceChina b) = true)) := by
  constructor
  · exact List.mergeSort_perm _ _
  · have h := List.sorted_mergeSort cmpLe_trans cmpLe_total
      (resources.map (fun r => (getPriceComparison r).2))
    exact h.imp (fun hab => by
      simpa only [cmpLe, Bool.or_eq_true, Bool.and_eq_true, decide_eq_true_eq] using hab)

/-- Resource whose only China-accessible quote costs 0 CNY. -/
def resourceZeroPrice : PaidResource :=
  ⟨"ebook zero", none, "ebook", none, none, 9/10, 4/5, 1, 1, [⟨0, true, true, ["alipay"]⟩]⟩

/-- Resource whose only China-accessible quote costs 5 CNY. -/
def resourceFivePrice : PaidResource :=
  ⟨"ebook five", none, "ebook", none, none, 9/10, 4/5, 1, 1, [⟨5, true, true, ["alipay"]⟩]⟩

/-- C8 counterexample: both resources land in the same recommendation tier,
yet the zero-priced one is sorted after the 5-CNY one, so the output is not
ordered by ascending region-best price with only the missing-price
resources last. -/
theorem batchPriceComparison_zero_price_misordered :
    ¬ (batchPriceComparison [resourceZeroPrice, resourceFivePrice]).Pairwise (fun a b =>
      recOrder a.recommendation < recOrder b.recommendation ∨
        (recOrder a.recommendation = recOrder b.recommendation ∧
          infLe (a.bestPriceChina.map (fun p => p.priceInCNY))
            (b.bestPriceChina.map (fun p => p.priceInCNY)) = true)) := by
  with_unfolding_all decide

end Crawler
